import Mathlib

/-!
Shallow embedding of `extract_version.py` (rsxdalv/extract-python-version).

The program is a single-file Python utility.  Strings are modelled as
`List Char` (file contents are assumed to decode; only ASCII-relevant
behaviour of Python's `\s` and `\d` character classes is modelled, which
covers every content the claims mention).  Python's `re.search` for the
two concrete patterns used by the program — `version\s*=\s*['"](.*?)['"]`
and `__version__\s*=\s*['"](.*?)['"]` — is modelled exactly: leftmost
starting position wins, `\s*` is greedy (followed by a non-space literal,
so greediness is exact), the character class `['"]` accepts either quote,
and the lazy group `(.*?)` captures up to the first quote character,
failing if a newline or the end of input intervenes (`.` does not match
a newline).
-/

/-- Python `\s` on the ASCII range: space, tab, newline, carriage return,
vertical tab, form feed. -/
def isPySpace (c : Char) : Bool :=
  c = ' ' || c = '\t' || c = '\n' || c = '\r' || c = '\x0b' || c = '\x0c'

/-- Match a literal character sequence at the head of the input, returning
the rest of the input on success. -/
def dropLit : List Char → List Char → Option (List Char)
  | [], l => some l
  | _ :: _, [] => none
  | p :: ps, c :: cs => if c = p then dropLit ps cs else none

/-- Python `pat in s` for strings: substring containment. -/
def hasSub (pat : List Char) : List Char → Bool
  | [] => (dropLit pat ([] : List Char)).isSome
  | c :: rest => (dropLit pat (c :: rest)).isSome || hasSub pat rest

/-- The lazy group `(.*?)` immediately followed by `['"]`: capture up to the
first quote character; fail on a newline (not matched by `.`) or end of
input. -/
def takeUntilQuote : List Char → Option (List Char)
  | [] => none
  | c :: rest =>
    if c = '\'' || c = '"' then some []
    else if c = '\n' then none
    else (takeUntilQuote rest).map (fun g => c :: g)

/-- Try to match `LIT\s*=\s*['"](.*?)['"]` starting exactly at the head of
`l`, returning the captured group. -/
def matchAssignAt (lit : List Char) (l : List Char) : Option (List Char) :=
  match dropLit lit l with
  | none => none
  | some r1 =>
    match r1.dropWhile isPySpace with
    | '=' :: r3 =>
      (match r3.dropWhile isPySpace with
       | q :: r5 => if q = '\'' || q = '"' then takeUntilQuote r5 else none
       | [] => none)
    | _ => none

/-- `re.search` for the pattern `LIT\s*=\s*['"](.*?)['"]`: the match at the
leftmost starting position wins; returns the captured group. -/
def reSearchAssign (lit : List Char) : List Char → Option (List Char)
  | [] => none
  | c :: rest =>
    match matchAssignAt lit (c :: rest) with
    | some g => some g
    | none => reSearchAssign lit rest

/-- One-pass scanner for `re.findall(r'\d+', s)`: `cur` is the current run
of digits, collected in reverse. -/
def digitRunsAux (cur : List Char) : List Char → List (List Char)
  | [] => if cur = [] then [] else [cur.reverse]
  | c :: rest =>
    if c.isDigit then digitRunsAux (c :: cur) rest
    else if cur = [] then digitRunsAux [] rest
    else cur.reverse :: digitRunsAux [] rest

/-- `re.findall(r'\d+', s)`: the maximal runs of decimal digits, left to
right. -/
def digitRuns (l : List Char) : List (List Char) :=
  digitRunsAux [] l

/-- `parse_version_parts` (src/extract_version.py lines 148-163).  The
input is `none` for Python `None`; `if not version` is true exactly for
`None` and the empty string. -/
def parse_version_parts (version : Option String) : String × String × String :=
  match version with
  | none => ("0", "0", "0")
  | some v =>
    if v = "" then ("0", "0", "0")
    else
      let clean := v.toList.dropWhile (fun c => c = 'v')
      let parts := (digitRuns clean).map List.asString
      (parts.getD 0 "0", parts.getD 1 "0", parts.getD 2 "0")

/-- Claim-side restatement of `parse_version_parts`: the first three
maximal digit runs of the original string (no `v`-stripping), missing runs
replaced by "0". -/
def parse_version_parts_runs (version : Option String) : String × String × String :=
  match version with
  | none => ("0", "0", "0")
  | some v =>
    if v = "" then ("0", "0", "0")
    else
      let parts := (digitRuns v.toList).map List.asString
      (parts.getD 0 "0", parts.getD 1 "0", parts.getD 2 "0")

/-!
## Build-script extraction (`extract_from_setup_py`, lines 14-43)

The first two methods are the literal regex searches modelled above.  The
third method runs CPython's `ast.parse` over the content and walks the
tree for a call named `setup` with a `version` keyword; that parser is not
reproduced here, so its outcome for the given content is passed in as an
explicit `AstOutcome` value: `raised` when `ast.parse` (or the walk)
raised, `found v` when the walk returned the string `v`, `notFound` when
the walk completed without returning.
-/

/-- Outcome of the `try: tree = ast.parse(content); ...` block of
`extract_from_setup_py`, abstracting CPython's parser. -/
inductive AstOutcome where
  | raised : AstOutcome
  | found : String → AstOutcome
  | notFound : AstOutcome

/-- The `try`/`except Exception: pass` wrapper around the AST walk: a
raised exception is absorbed and the function falls through to
`return None`. -/
def astBlock : AstOutcome → Option String
  | AstOutcome.raised => none
  | AstOutcome.found v => some v
  | AstOutcome.notFound => none

/-- `extract_from_setup_py` (lines 14-43), after the file content has been
read: method 1 is `re.search(r'version\s*=\s*[\x27\x22](.*?)[\x27\x22]')`,
method 2 the same with `__version__`, method 3 the AST walk. -/
def extract_from_setup_py (text : List Char) (a : AstOutcome) : Option String :=
  match reSearchAssign "version".toList text with
  | some g => some g.asString
  | none =>
    match reSearchAssign "__version__".toList text with
    | some g => some g.asString
    | none => astBlock a

/-- `extract_from_init_py` (lines 77-87), after the file content has been
read: a single `__version__` regex search. -/
def extract_from_init_py (text : List Char) : Option String :=
  match reSearchAssign "__version__".toList text with
  | some g => some g.asString
  | none => none

/-!
## Project-manifest extraction (`extract_from_pyproject_toml`, lines 46-74)

`tomllib.load` returns a Python dict.  TOML values other than strings and
tables do not occur in the claims and are not modelled.  The parse of the
file is abstracted as a `TomlParseOutcome` (the parser itself is CPython's
`tomllib`): `parsed data` when loading succeeded, `parseError` when it
raised.  Python dictionary/string semantics used by the function are
modelled exactly: `k in dict` is key membership, `k in str` is substring
containment, `dict[k]` raises `KeyError` when absent, and `str[k]` raises
`TypeError`; the surrounding `try`/`except Exception` absorbs any raise
into `return None`.
-/

/-- A TOML value as produced by `tomllib.load`: a string or a table. -/
inductive TomlValue where
  | str : String → TomlValue
  | table : List (String × TomlValue) → TomlValue

/-- Dictionary lookup (`d[k]` under a successful `k in d` guard). -/
def dictFind (es : List (String × TomlValue)) (k : String) : Option TomlValue :=
  (es.find? (fun e => e.1 == k)).map Prod.snd

/-- Python `k in v`: key membership for a dict, substring containment for
a string. -/
def keyMem (k : String) : TomlValue → Bool
  | TomlValue.table es => es.any (fun e => e.1 == k)
  | TomlValue.str s => hasSub k.toList s.toList

/-- Python `v[k]`: dict indexing (`KeyError` when the key is absent),
`TypeError` on a string. -/
def getItem (v : TomlValue) (k : String) : Except Unit TomlValue :=
  match v with
  | TomlValue.table es =>
    match dictFind es k with
    | some x => Except.ok x
    | none => Except.error ()
  | TomlValue.str _ => Except.error ()

/-- The trailing `elif 'version' in data: return data['version']` branch
(lines 69-70); falling past it reaches `return None`. -/
def toml_lookup_top (data : List (String × TomlValue)) : Except Unit (Option TomlValue) :=
  Except.ok (dictFind data "version")

/-- The `elif 'tool' in data and 'poetry' in data['tool'] and 'version' in
data['tool']['poetry']` branch (lines 67-68), including the raise that
`data['tool']['poetry']` can produce while the guard itself is being
evaluated. -/
def toml_lookup_tool (data : List (String × TomlValue)) : Except Unit (Option TomlValue) :=
  match dictFind data "tool" with
  | none => toml_lookup_top data
  | some tv =>
    if keyMem "poetry" tv then
      match getItem tv "poetry" with
      | Except.error e => Except.error e
      | Except.ok poetry =>
        if keyMem "version" poetry then
          match getItem poetry "version" with
          | Except.error e => Except.error e
          | Except.ok v => Except.ok (some v)
        else toml_lookup_top data
    else toml_lookup_top data

/-- The body of the `try` block of `extract_from_pyproject_toml` after a
successful `tomllib.load` (lines 64-70). -/
def toml_version_lookup (data : List (String × TomlValue)) : Except Unit (Option TomlValue) :=
  match dictFind data "project" with
  | none => toml_lookup_tool data
  | some pv =>
    if keyMem "version" pv then
      match getItem pv "version" with
      | Except.error e => Except.error e
      | Except.ok v => Except.ok (some v)
    else toml_lookup_tool data

/-- Outcome of `tomllib.load` on the file, abstracting CPython's TOML
parser. -/
inductive TomlParseOutcome where
  | parseError : TomlParseOutcome
  | parsed : List (String × TomlValue) → TomlParseOutcome

/-- `extract_from_pyproject_toml` (lines 46-74).  `ta` tells whether a
TOML parser (`tomllib` or `tomli`) is importable; when it is not, the
function falls back to the same `version` regex used for build scripts
(lines 54-58).  When it is, any exception inside the `try` block — a
parse error or an access error — is absorbed into `return None`
(lines 71-74). -/
def extract_from_pyproject_toml (ta : Bool) (text : List Char)
    (o : TomlParseOutcome) : Option TomlValue :=
  if ta then
    match o with
    | TomlParseOutcome.parseError => none
    | TomlParseOutcome.parsed data =>
      match toml_version_lookup data with
      | Except.ok r => r
      | Except.error _ => none
  else
    (reSearchAssign "version".toList text).map (fun g => TomlValue.str g.asString)

/-- Claim-side helper: "the nested value at `data[k].version`, when
`data[k]` is present and is a table and carries `version`". -/
def tableVersion : Option TomlValue → Option TomlValue
  | some (TomlValue.table es) => dictFind es "version"
  | _ => none

/-- Claim-side helper: the value at `[tool.poetry].version` when the whole
path exists through tables. -/
def poetryVersion (data : List (String × TomlValue)) : Option TomlValue :=
  match dictFind data "tool" with
  | some (TomlValue.table es) =>
    match dictFind es "poetry" with
    | some (TomlValue.table ps) => dictFind ps "version"
    | _ => none
  | _ => none

/-- Claim-side restatement of the manifest lookup chain:
`[project].version`, else `[tool.poetry].version`, else the top-level
`version` key, else nothing. -/
def version_chain_spec (data : List (String × TomlValue)) : Option TomlValue :=
  match tableVersion (dictFind data "project") with
  | some v => some v
  | none =>
    match poetryVersion data with
    | some v => some v
    | none => dictFind data "version"

/-!
## File discovery and dispatch (`find_version_files`, `extract_version`)

The filesystem visible to the program is modelled as the list of existing
text files (path, content and the outcomes of the two external parsers on
that content), plus the result of `os.listdir('.')` and the set of
entries that are directories.
-/

/-- A file as the program sees it: its decoded text plus the outcomes of
the two external parsers (`ast.parse`, `tomllib.load`) on that text. -/
structure PyFile where
  text : List Char
  ast : AstOutcome
  toml : TomlParseOutcome

/-- Placeholder used by `fsGet` below; never reached, because every call
is guarded by an existence check, exactly as in the source. -/
def emptyPyFile : PyFile :=
  { text := [], ast := AstOutcome.notFound, toml := TomlParseOutcome.parseError }

/-- The filesystem state for one run. -/
structure FS where
  files : List (String × PyFile)
  listing : List String
  dirNames : List String

/-- `os.path.exists` restricted to the modelled files. -/
def fsExists (fs : FS) (p : String) : Bool :=
  fs.files.any (fun e => e.1 == p)

/-- Content lookup; callers check `fsExists` first. -/
def fsGet (fs : FS) (p : String) : PyFile :=
  ((fs.files.find? (fun e => e.1 == p)).map Prod.snd).getD emptyPyFile

/-- Characters seen since the last slash, accumulated in reverse. -/
def basenameAux (acc : List Char) : List Char → List Char
  | [] => acc.reverse
  | c :: rest => if c = '/' then basenameAux [] rest else basenameAux (c :: acc) rest

/-- `os.path.basename`: the component after the last slash. -/
def pyBasename (p : String) : String :=
  (basenameAux [] p.toList).asString

/-- `find_version_files` (lines 90-106): the four conventional names, then
`<d>/__init__.py` for every non-hidden directory entry `d` that has one,
all filtered by existence. -/
def find_version_files (fs : FS) : List String :=
  let base := ["setup.py", "pyproject.toml", "__init__.py", "src/__init__.py"]
  let extra := (fs.listing.filter
      (fun d => fs.dirNames.contains d && !(d.startsWith "."))).filterMap
    (fun d =>
      let f := d ++ "/__init__.py"
      if fsExists fs f then some f else none)
  (base ++ extra).filter (fun f => fsExists fs f)

/-- `extract_version` on an explicit path (lines 124-145): existence
check, then dispatch on the basename, with a content sniff for
unrecognized names. -/
def extract_version_file (ta : Bool) (fs : FS) (path : String) : Option TomlValue :=
  if fsExists fs path then
    let pf := fsGet fs path
    let filename := pyBasename path
    if filename = "setup.py" then
      (extract_from_setup_py pf.text pf.ast).map TomlValue.str
    else if filename = "pyproject.toml" then
      extract_from_pyproject_toml ta pf.text pf.toml
    else if filename = "__init__.py" then
      (extract_from_init_py pf.text).map TomlValue.str
    else if hasSub "setup(".toList pf.text then
      (extract_from_setup_py pf.text pf.ast).map TomlValue.str
    else if hasSub "[project]".toList pf.text || hasSub "[tool.poetry]".toList pf.text then
      extract_from_pyproject_toml ta pf.text pf.toml
    else
      (extract_from_init_py pf.text).map TomlValue.str
  else none

/-- Python truthiness of an extracted value: a non-empty string or a
non-empty dict. -/
def truthy : TomlValue → Bool
  | TomlValue.str s => !(s.isEmpty)
  | TomlValue.table es => !(es.isEmpty)

/-- The auto-mode loop of `extract_version` (lines 117-121): for each file
of the preference list that was discovered, extract, and return the result
if it is truthy. -/
def tryFiles (ta : Bool) (fs : FS) : List String → List String → Option TomlValue
  | [], _ => none
  | f :: rest, files =>
    if files.contains f then
      match extract_version_file ta fs f with
      | some v => if truthy v then some v else tryFiles ta fs rest files
      | none => tryFiles ta fs rest files
    else tryFiles ta fs rest files

/-- `extract_version` (lines 109-145).  In auto mode the discovered files
are tried in the order `setup.py`, `pyproject.toml`, then every discovered
`__init__.py`; the recursive call `extract_version(file)` is the explicit
path case, inlined here as `extract_version_file` (no discovered name is
the literal string `auto`). -/
def extract_version (ta : Bool) (fs : FS) (file_path : String) : Option TomlValue :=
  if file_path = "auto" then
    let files := find_version_files fs
    if files.isEmpty then none
    else
      tryFiles ta fs
        (["setup.py", "pyproject.toml"] ++ files.filter (fun f => f.endsWith "__init__.py"))
        files
  else extract_version_file ta fs file_path

/-- First non-`none` value of `g` over a list, left to right. -/
def firstSome (g : String → Option TomlValue) : List String → Option TomlValue
  | [] => none
  | f :: rest =>
    match g f with
    | some v => some v
    | none => firstSome g rest

/-- Claim-side restatement of auto-mode resolution: the first truthy
per-file result over the preference order — `setup.py`, `pyproject.toml`,
then every discovered initializer — and `none` when no discovered
candidate yields one. -/
def auto_resolve_spec (ta : Bool) (fs : FS) : Option TomlValue :=
  let files := find_version_files fs
  firstSome
    (fun f =>
      if files.contains f then
        match extract_version_file ta fs f with
        | some v => if truthy v then some v else none
        | none => none
      else none)
    (["setup.py", "pyproject.toml"] ++ files.filter (fun f => f.endsWith "__init__.py"))

/-!
## The CLI driver (`main`, lines 166-193)

`argparse` itself is not modelled; an `Args` value is a parsed command
line.  Output is modelled observationally: the lines printed to stdout
and stderr and the lines appended to the output file.  A run that raises
an uncaught exception is `Except.error ()` — the interpreter prints a
traceback and exits with a non-zero code, producing none of the modelled
output.
-/

/-- The parsed command line: `--file-path` (default `"auto"`),
`--fallback-version` (default `"0.0.0"`), `--output-file` (optional). -/
structure Args where
  file_path : String
  fallback_version : String
  output_file : Option String

/-- The default command line. -/
def defaultArgs : Args :=
  { file_path := "auto", fallback_version := "0.0.0", output_file := none }

/-- Python `f"{v}"` for the values that can reach an output statement.  A
non-empty dict never reaches one: `parse_version_parts` raises on it
before anything is printed, so its `repr` is unobservable and not
modelled. -/
def pyStr : TomlValue → String
  | TomlValue.str s => s
  | TomlValue.table _ => ""

/-- `parse_version_parts` as called from `main`, on the possibly
non-string value produced by extraction: `version.lstrip('v')` raises
`AttributeError` on a dict (a dict is only consulted when truthy, i.e.
non-empty; an empty dict is falsy and yields the `('0','0','0')`
branch). -/
def parse_version_parts_py : TomlValue → Except Unit (String × String × String)
  | TomlValue.str s => Except.ok (parse_version_parts (some s))
  | TomlValue.table es => if es.isEmpty then Except.ok ("0", "0", "0") else Except.error ()

/-- The warning printed to stderr when no version was found. -/
def warningLine (fv : String) : String :=
  "Warning: No version found, using fallback: " ++ fv

/-- The observable result of a completed run. -/
structure MainResult where
  versionOut : String
  tag : String
  major : String
  minor : String
  patch : String
  stdout : List String
  stderr : List String
  appended : List String
  exitCode : Nat

/-- Lines 175-176: substitute the fallback version when the extraction
result is falsy (`None`, the empty string, or an empty dict). -/
def resolveValue (args : Args) (v0 : Option TomlValue) : TomlValue :=
  match v0 with
  | none => TomlValue.str args.fallback_version
  | some v => if truthy v then v else TomlValue.str args.fallback_version

/-- Whether line 177 prints the fallback warning. -/
def resolveWarned : Option TomlValue → Bool
  | none => true
  | some v => !(truthy v)

/-- The five `key=value` lines written when `--output-file` is given
(lines 187-193), and no lines otherwise. -/
def outputLines (args : Args) (v tag major minor patch : String) : List String :=
  match args.output_file with
  | some _ => ["version=" ++ v, "tag=" ++ tag, "major=" ++ major,
      "minor=" ++ minor, "patch=" ++ patch]
  | none => []

/-- The observable record of a completed run of `main`, assembled from the
final version value, the warning flag and the three parts. -/
def mkMainResult (args : Args) (vb : TomlValue) (warned : Bool)
    (t : String × String × String) : MainResult :=
  { versionOut := pyStr vb
    tag := "v" ++ pyStr vb
    major := t.1
    minor := t.2.1
    patch := t.2.2
    stdout := ["Extracted version: " ++ pyStr vb, "Tag: " ++ ("v" ++ pyStr vb),
      "Parts: " ++ t.1 ++ "." ++ t.2.1 ++ "." ++ t.2.2]
    stderr := if warned then [warningLine args.fallback_version] else []
    appended := outputLines args (pyStr vb) ("v" ++ pyStr vb) t.1 t.2.1 t.2.2
    exitCode := 0 }

/-- `main` (lines 166-193): resolve, substitute the fallback when the
result is falsy (warning on stderr), build the tag, split into parts —
the step that raises when the extracted value is a non-empty dict — print
three lines, and append five `key=value` lines when `--output-file` was
given.  The function body has no failure exit of its own: every completed
run ends with exit code 0. -/
def pyMain (ta : Bool) (fs : FS) (args : Args) : Except Unit MainResult :=
  let vb := resolveValue args (extract_version ta fs args.file_path)
  let warned := resolveWarned (extract_version ta fs args.file_path)
  match parse_version_parts_py vb with
  | Except.error e => Except.error e
  | Except.ok t => Except.ok (mkMainResult args vb warned t)

/-- The content of the output file after one run, modelling `open(..., 'a')`
followed by the five writes: the previous content with the run's lines
appended. -/
def appendRun (prev : String) (r : MainResult) : String :=
  prev ++ String.join (r.appended.map (fun l => l ++ "\n"))

/-- The result of a completed run whose final version value is the string
`s` (either extracted, or the fallback, in which case `warned` is true). -/
def mainStrResult (args : Args) (s : String) (warned : Bool) : MainResult :=
  let tag := "v" ++ s
  let t := parse_version_parts (some s)
  { versionOut := s
    tag := tag
    major := t.1
    minor := t.2.1
    patch := t.2.2
    stdout := ["Extracted version: " ++ s, "Tag: " ++ tag,
      "Parts: " ++ t.1 ++ "." ++ t.2.1 ++ "." ++ t.2.2]
    stderr := if warned then [warningLine args.fallback_version] else []
    appended :=
      match args.output_file with
      | some _ => ["version=" ++ s, "tag=" ++ tag, "major=" ++ t.1,
          "minor=" ++ t.2.1, "patch=" ++ t.2.2]
      | none => []
    exitCode := 0 }

/-- Whether an extraction result is a non-empty dict — the only modelled
value on which `main` raises. -/
def isNonEmptyTable : Option TomlValue → Bool
  | some (TomlValue.table (_ :: _)) => true
  | _ => false

/-- Whether an optional TOML value is present and a string. -/
def isStrVal : Option TomlValue → Bool
  | some (TomlValue.str _) => true
  | _ => false

/-- The raw value at `tool.poetry` reached through a `tool` table
(regardless of the poetry value's own shape). -/
def poetryVal (data : List (String × TomlValue)) : Option TomlValue :=
  match dictFind data "tool" with
  | some (TomlValue.table es) => dictFind es "poetry"
  | _ => none

/-!
## Concrete inputs used by witnesses and counterexamples
-/

/-- An empty working directory. -/
def fsEmpty : FS := { files := [], listing := [], dirNames := [] }

/-- A `setup.py` whose first `version` assignment is `"9"` while the text
`version="1.2.3"` also occurs later — valid Python (two plain
assignments), so the AST walk completes without finding a `setup` call. -/
def c3cex : List Char := "version=\"9\"\nversion=\"1.2.3\"\n".toList

/-- A `pyproject.toml` text that contains the inline assignment
`version="1.2.3"` but is not well-formed TOML (the stray `][` line), so
`tomllib.load` raises: the outcome paired with it is `parseError`. -/
def c2text : List Char := "version=\"1.2.3\"\n][ not toml\n".toList

/-- Parsed form of a manifest whose top-level `project` key holds the
string `"version"` (so Python's `'version' in data['project']` is a true
substring test and `data['project']['version']` raises `TypeError`) and
which also carries `[tool.poetry] version = "2.0.0"`. -/
def c4data : List (String × TomlValue) :=
  [("project", TomlValue.str "version"),
   ("tool", TomlValue.table [("poetry", TomlValue.table [("version", TomlValue.str "2.0.0")])])]

/-- Source text for `c4data`. -/
def c4text : List Char :=
  "project = \"version\"\n[tool.poetry]\nversion = \"2.0.0\"\n".toList

/-- A manifest carrying both `[project] version = "2.0.0"` and
`[tool.poetry] version = "9.9.9"`. -/
def c4wdata : List (String × TomlValue) :=
  [("project", TomlValue.table [("version", TomlValue.str "2.0.0")]),
   ("tool", TomlValue.table [("poetry", TomlValue.table [("version", TomlValue.str "9.9.9")])])]

/-- Parsed form of a `pyproject.toml` declaring `[project.version]` with
`sub = "1"`: the `version` value is itself a table. -/
def c7data : List (String × TomlValue) :=
  [("project", TomlValue.table [("version", TomlValue.table [("sub", TomlValue.str "1")])])]

/-- A directory holding only that manifest. -/
def fs7 : FS :=
  { files := [("pyproject.toml",
      { text := "[project.version]\nsub = \"1\"\n".toList
        ast := AstOutcome.raised
        toml := TomlParseOutcome.parsed c7data })]
    listing := ["pyproject.toml"]
    dirNames := [] }

/-- Invocation `--file-path pyproject.toml` against `fs7`. -/
def args7 : Args :=
  { file_path := "pyproject.toml", fallback_version := "0.0.0", output_file := none }

/-- A directory whose `setup.py` assigns the empty version `version = ""`
and whose `pyproject.toml` carries `[project] version = "3.1.4"`. -/
def fs10 : FS :=
  { files :=
      [("setup.py",
        { text := "from setuptools import setup\nversion = \"\"\nsetup(name=\"p\")\n".toList
          ast := AstOutcome.notFound
          toml := TomlParseOutcome.parseError }),
       ("pyproject.toml",
        { text := "[project]\nname = \"p\"\nversion = \"3.1.4\"\n".toList
          ast := AstOutcome.raised
          toml := TomlParseOutcome.parsed
            [("project", TomlValue.table
              [("name", TomlValue.str "p"), ("version", TomlValue.str "3.1.4")])] })]
    listing := ["setup.py", "pyproject.toml"]
    dirNames := [] }

/-- Invocation `--file-path setup.py --fallback-version 7.7.7`. -/
def args10 : Args :=
  { file_path := "setup.py", fallback_version := "7.7.7", output_file := none }

/-- Invocation with an output file, in an empty directory. -/
def args8 : Args :=
  { file_path := "auto", fallback_version := "0.0.0", output_file := some "out.txt" }

/-!
## Helper lemmas
-/

theorem digitRuns_append_of_nodigit (p : List Char) (l : List Char)
    (hp : ∀ c ∈ p, c.isDigit = false) :
    digitRuns (p ++ l) = digitRuns l := by
  induction p with
  | nil => rfl
  | cons c p ih =>
    have hc : c.isDigit = false := hp c (List.mem_cons_self c p)
    rw [List.cons_append]
    show digitRunsAux [] (c :: (p ++ l)) = digitRuns l
    rw [digitRunsAux]
    simp only [hc, Bool.false_eq_true, if_false, if_pos rfl]
    exact ih (fun d hd => hp d (List.mem_cons_of_mem _ hd))

theorem parse_version_parts_eq_runs (v : Option String) :
    parse_version_parts v = parse_version_parts_runs v := by
  match v with
  | none => rfl
  | some s =>
    by_cases hs : s = ""
    · simp [parse_version_parts, parse_version_parts_runs, hs]
    · simp only [parse_version_parts, parse_version_parts_runs, hs, if_false]
      have hsplit : s.toList.takeWhile (fun c => c = 'v') ++
          s.toList.dropWhile (fun c => c = 'v') = s.toList :=
        List.takeWhile_append_dropWhile (fun c => decide (c = 'v')) s.toList
      have hnd : ∀ c ∈ s.toList.takeWhile (fun c => c = 'v'), c.isDigit = false := by
        intro c hc
        have h2 := List.mem_takeWhile_imp hc
        have hcv : c = 'v' := by simpa using h2
        subst hcv
        decide
      have : digitRuns s.toList = digitRuns (s.toList.dropWhile (fun c => c = 'v')) := by
        conv_lhs => rw [← hsplit]
        exact digitRuns_append_of_nodigit _ _ hnd
      rw [this]

theorem parse_prepend_nodigit (p s : String)
    (hp : ∀ c ∈ p.toList, c.isDigit = false) (hne : p ++ s ≠ "") :
    parse_version_parts (some (p ++ s)) = parse_version_parts (some s) := by
  rw [parse_version_parts_eq_runs, parse_version_parts_eq_runs]
  have htl : (p ++ s).toList = p.toList ++ s.toList := String.data_append p s
  have hruns : digitRuns (p ++ s).toList = digitRuns s.toList := by
    rw [htl]
    exact digitRuns_append_of_nodigit _ _ hp
  by_cases hs : s = ""
  · subst hs
    simp only [parse_version_parts_runs, hne, if_false, if_pos rfl]
    have h0 : digitRuns (p ++ "").toList = [] := by
      rw [hruns]
      rfl
    rw [h0]
    rfl
  · simp only [parse_version_parts_runs, hne, hs, if_false]
    rw [hruns]

example : extract_from_setup_py c3cex AstOutcome.notFound = some "9" := rfl
example : extract_from_pyproject_toml true c4text (TomlParseOutcome.parsed c4data) = none := rfl
example : version_chain_spec c4data = some (TomlValue.str "2.0.0") := rfl
example : pyMain true fs7 args7 = Except.error () := rfl
example : extract_version true fs10 "setup.py" = some (TomlValue.str "") := rfl
example : pyMain true fs10 args10 = Except.ok (mainStrResult args10 "7.7.7" true) := rfl
example : pyMain true fsEmpty args8 = Except.ok (mainStrResult args8 "0.0.0" true) := rfl
example : extract_version true fs10 "auto" = some (TomlValue.str "3.1.4") := rfl
example : reSearchAssign "version".toList "x version = '1.2' version='9'".toList
    = some "1.2".toList := by decide

/-!
## Claim theorems
-/

/-- C1: `parse_version_parts` returns `("0", "0", "0")` on `None` and on
the empty string, and otherwise returns the first three maximal decimal
digit runs of the input taken left to right regardless of separators,
missing runs replaced by `"0"` and further runs ignored (the `lstrip('v')`
step never changes the digit runs); in particular the three quoted
examples hold. -/
theorem C1_parse_version_parts_runs :
    (∀ v : Option String, parse_version_parts v = parse_version_parts_runs v) ∧
    parse_version_parts none = ("0", "0", "0") ∧
    parse_version_parts (some "") = ("0", "0", "0") ∧
    parse_version_parts (some "v1.2.3") = ("1", "2", "3") ∧
    parse_version_parts (some "1.2") = ("1", "2", "0") ∧
    parse_version_parts (some "release-10-beta-3") = ("10", "3", "0") :=
  ⟨parse_version_parts_eq_runs, rfl, by decide, by decide, by decide, by decide⟩

/-- C9: `parse_version_parts` depends only on the digit runs of its input:
prepending any digit-free string `p` to `s` leaves the result unchanged
whenever `p ++ s` is non-empty, and in particular prepending `"v"` to a
non-empty string changes nothing. -/
theorem C9_parse_ignores_nondigit_prefixes :
    (∀ p s : String, (∀ c ∈ p.toList, c.isDigit = false) → p ++ s ≠ "" →
      parse_version_parts (some (p ++ s)) = parse_version_parts (some s)) ∧
    (∀ s : String, s ≠ "" →
      parse_version_parts (some ("v" ++ s)) = parse_version_parts (some s)) := by
  refine ⟨parse_prepend_nodigit, fun s hs => parse_prepend_nodigit "v" s (by decide) ?_⟩
  intro h
  have hd : ('v' :: s.data : List Char) = [] := by
    have h2 := congrArg String.data h
    rwa [String.data_append] at h2
  exact List.cons_ne_nil _ _ hd

/-- C9 witness: the prefix law applied at `p = "rel-"`, `s = "1.2"`, and
the `v`-prefix law at `s = "1.2.3"`. -/
theorem C9_witness :
    parse_version_parts (some ("rel-" ++ "1.2")) = parse_version_parts (some "1.2") ∧
    parse_version_parts (some ("v" ++ "1.2.3")) = parse_version_parts (some "1.2.3") :=
  ⟨C9_parse_ignores_nondigit_prefixes.1 "rel-" "1.2" (by decide) (by decide),
   C9_parse_ignores_nondigit_prefixes.2 "1.2.3" (by decide)⟩

/-- C5: `extract_from_setup_py` tries the inline `version = "..."` match,
then the `__version__ = "..."` match, then the AST walk, returning the
first success; when all three miss it returns nothing, and a raise inside
the AST step (e.g. a syntax error) is absorbed into nothing rather than
an exception. -/
theorem C5_setup_py_method_order :
    (∀ (text : List Char) (a : AstOutcome) (g : List Char),
        reSearchAssign "version".toList text = some g →
        extract_from_setup_py text a = some g.asString) ∧
    (∀ (text : List Char) (a : AstOutcome) (g : List Char),
        reSearchAssign "version".toList text = none →
        reSearchAssign "__version__".toList text = some g →
        extract_from_setup_py text a = some g.asString) ∧
    (∀ (text : List Char) (a : AstOutcome),
        reSearchAssign "version".toList text = none →
        reSearchAssign "__version__".toList text = none →
        extract_from_setup_py text a = astBlock a) ∧
    astBlock AstOutcome.raised = none ∧
    (∀ v, astBlock (AstOutcome.found v) = some v) ∧
    astBlock AstOutcome.notFound = none := by
  refine ⟨?_, ?_, ?_, rfl, fun _ => rfl, rfl⟩
  · intro text a g h
    unfold extract_from_setup_py
    rw [h]
  · intro text a g h1 h2
    unfold extract_from_setup_py
    rw [h1, h2]
  · intro text a h1 h2
    unfold extract_from_setup_py
    rw [h1, h2]

/-- C5 witness: the three fallback stages at concrete contents — an
inline match, a `__version__` match, a `setup(version=1.23)` call whose
numeric version only the AST walk can see (both regexes require a quote),
and a content on which `ast.parse` raises. -/
theorem C5_witness :
    extract_from_setup_py "version = '1.0'".toList AstOutcome.raised
      = some (List.asString "1.0".toList) ∧
    extract_from_setup_py "__version__ = '2.0'".toList AstOutcome.raised
      = some (List.asString "2.0".toList) ∧
    extract_from_setup_py "setup(name='p', version=1.23)".toList (AstOutcome.found "1.23")
      = astBlock (AstOutcome.found "1.23") ∧
    extract_from_setup_py "def broken(:".toList AstOutcome.raised
      = astBlock AstOutcome.raised :=
  ⟨C5_setup_py_method_order.1 _ _ _ (by decide),
   C5_setup_py_method_order.2.1 _ _ _ (by decide) (by decide),
   C5_setup_py_method_order.2.2.1 _ _ (by decide) (by decide),
   C5_setup_py_method_order.2.2.1 _ _ (by decide) (by decide)⟩

theorem keyMem_table (k : String) (es : List (String × TomlValue)) :
    keyMem k (TomlValue.table es) = (dictFind es k).isSome := by
  induction es with
  | nil => rfl
  | cons e es ih =>
    show (e.1 == k || es.any (fun e => e.1 == k)) = _
    unfold dictFind at ih ⊢
    rw [List.find?_cons]
    cases he : (e.1 == k) with
    | true => simp [he]
    | false => simpa [he] using ih

theorem toml_lookup_tool_eq (data : List (String × TomlValue))
    (h2 : isStrVal (dictFind data "tool") = false)
    (h3 : isStrVal (poetryVal data) = false) :
    toml_lookup_tool data = Except.ok
      (match poetryVersion data with
       | some v => some v
       | none => dictFind data "version") := by
  unfold toml_lookup_tool poetryVersion toml_lookup_top
  unfold poetryVal at h3
  cases ht : dictFind data "tool" with
  | none => rfl
  | some tv =>
    rw [ht] at h3
    cases tv with
    | str s =>
      rw [ht] at h2
      exact absurd h2 (by simp [isStrVal])
    | table es =>
      dsimp only at h3 ⊢
      rw [keyMem_table]
      cases hpo : dictFind es "poetry" with
      | none => simp [getItem, hpo]
      | some poetry =>
        rw [hpo] at h3
        simp only [getItem, hpo, Option.isSome_some, if_true]
        cases poetry with
        | str s => exact absurd h3 (by simp [isStrVal])
        | table ps =>
          rw [keyMem_table]
          cases hv : dictFind ps "version" with
          | none => simp [hv]
          | some v => simp [hv]

theorem toml_version_lookup_eq_chain (data : List (String × TomlValue))
    (h1 : isStrVal (dictFind data "project") = false)
    (h2 : isStrVal (dictFind data "tool") = false)
    (h3 : isStrVal (poetryVal data) = false) :
    toml_version_lookup data = Except.ok (version_chain_spec data) := by
  unfold toml_version_lookup version_chain_spec
  cases hp : dictFind data "project" with
  | none =>
    simp only [tableVersion]
    exact toml_lookup_tool_eq data h2 h3
  | some pv =>
    cases pv with
    | str s =>
      rw [hp] at h1
      exact absurd h1 (by simp [isStrVal])
    | table es =>
      simp only [tableVersion]
      rw [keyMem_table]
      cases hv : dictFind es "version" with
      | some v => simp [getItem, hv]
      | none =>
        simp only [getItem, hv, Option.isSome_none, Bool.false_eq_true, if_false]
        exact toml_lookup_tool_eq data h2 h3

/-- C4 counterexample: `c4data` is the parse of a well-formed manifest
(`c4text`) on which the claim's chain gives the `[tool.poetry]` version
`"2.0.0"` — `[project].version` is absent since the `project` value is
the plain string `"version"` — yet extraction returns nothing: the guard
`'version' in data['project']` succeeds as a substring test, the access
`data['project']['version']` raises `TypeError`, and the `except` absorbs
it into `None` without ever consulting `[tool.poetry]`. -/
theorem C4_counterexample :
    extract_from_pyproject_toml true c4text (TomlParseOutcome.parsed c4data) = none ∧
    version_chain_spec c4data = some (TomlValue.str "2.0.0") :=
  ⟨rfl, rfl⟩

/-- C4 (amended): for every parsed manifest in which the values stored at
the top-level keys `project` and `tool`, and at `tool.poetry`, are not
strings (in particular whenever they are tables, as in every well-formed
manifest), the extracted version is `[project].version` if present, else
`[tool.poetry].version` if present, else the top-level `version` key,
else nothing; in particular `[project].version` wins when both are
present. -/
theorem C4_amended (data : List (String × TomlValue)) (text : List Char)
    (h1 : isStrVal (dictFind data "project") = false)
    (h2 : isStrVal (dictFind data "tool") = false)
    (h3 : isStrVal (poetryVal data) = false) :
    extract_from_pyproject_toml true text (TomlParseOutcome.parsed data)
      = version_chain_spec data ∧
    (∀ v, tableVersion (dictFind data "project") = some v →
        extract_from_pyproject_toml true text (TomlParseOutcome.parsed data) = some v) := by
  have hc := toml_version_lookup_eq_chain data h1 h2 h3
  have hmain : extract_from_pyproject_toml true text (TomlParseOutcome.parsed data)
      = version_chain_spec data := by
    show (match toml_version_lookup data with
          | Except.ok r => r
          | Except.error _ => none) = version_chain_spec data
    rw [hc]
  refine ⟨hmain, fun v hv => ?_⟩
  rw [hmain]
  unfold version_chain_spec
  rw [hv]

/-- C4 witness: a manifest carrying both `[project] version = "2.0.0"`
and `[tool.poetry] version = "9.9.9"` extracts the `[project]` value. -/
theorem C4_witness :
    extract_from_pyproject_toml true [] (TomlParseOutcome.parsed c4wdata)
      = version_chain_spec c4wdata ∧
    extract_from_pyproject_toml true [] (TomlParseOutcome.parsed c4wdata)
      = some (TomlValue.str "2.0.0") :=
  ⟨(C4_amended c4wdata [] rfl rfl rfl).1,
   (C4_amended c4wdata [] rfl rfl rfl).2 (TomlValue.str "2.0.0") rfl⟩

/-- C3 counterexample: the content `c3cex` contains the exact text
`version="1.2.3"`, yet the extraction returns `"9"` — the capture of the
leftmost match of the version pattern — refuting the claim that every
content containing `version="1.2.3"` extracts to `"1.2.3"`. -/
theorem C3_counterexample :
    hasSub "version=\"1.2.3\"".toList c3cex = true ∧
    extract_from_setup_py c3cex AstOutcome.notFound = some "9" ∧
    extract_from_setup_py c3cex AstOutcome.notFound ≠ some "1.2.3" :=
  ⟨by decide, rfl, by decide⟩

/-- C3 (amended): for every build-script content whose LEFTMOST match of
the pattern `version\s*=\s*['"](.*?)['"]` captures `1.2.3` — in
particular any content in which `version="1.2.3"` is the only
version-like assignment — the extraction returns `"1.2.3"`. -/
theorem C3_amended (text : List Char) (a : AstOutcome)
    (h : reSearchAssign "version".toList text = some "1.2.3".toList) :
    extract_from_setup_py text a = some "1.2.3" := by
  unfold extract_from_setup_py
  rw [h]
  rfl

/-- C3 witness: a content whose only assignment is `version="1.2.3"`. -/
theorem C3_witness :
    extract_from_setup_py "setup(\n    version=\"1.2.3\",\n)\n".toList AstOutcome.notFound
      = some "1.2.3" :=
  C3_amended _ _ (by decide)

/-- C2 counterexample: with a TOML parser available and a manifest whose
structured parse fails (`c2text` is malformed TOML) but which textually
contains `version="1.2.3"`, extraction returns nothing — the textual
fallback is NOT applied on parse failure, refuting the claim. -/
theorem C2_counterexample :
    extract_from_pyproject_toml true c2text TomlParseOutcome.parseError = none ∧
    (reSearchAssign "version".toList c2text).map List.asString = some "1.2.3" :=
  ⟨rfl, by decide⟩

theorem tryFiles_eq_firstSome (ta : Bool) (fs : FS) (files : List String) :
    ∀ l : List String,
      tryFiles ta fs l files = firstSome
        (fun f =>
          if files.contains f then
            match extract_version_file ta fs f with
            | some v => if truthy v then some v else none
            | none => none
          else none) l := by
  intro l
  induction l with
  | nil => rfl
  | cons f rest ih =>
    unfold tryFiles firstSome
    cases hc : files.contains f with
    | false => simpa [hc] using ih
    | true =>
      cases he : extract_version_file ta fs f with
      | none => simpa [hc, he] using ih
      | some v =>
        cases htr : truthy v with
        | true => simp [hc, he, htr]
        | false => simpa [hc, he, htr] using ih

/-- C6: in auto mode, `extract_version` tries the discovered candidates in
the preference order `setup.py`, `pyproject.toml`, then every discovered
`__init__.py`, applying the per-kind strategy to each and returning the
first truthy (non-empty) result; when no discovered candidate yields one
— in particular when no candidate file exists at all — it returns `None`
rather than raising. -/
theorem C6_auto_mode :
    (∀ (ta : Bool) (fs : FS), extract_version ta fs "auto" = auto_resolve_spec ta fs) ∧
    (∀ (ta : Bool) (fs : FS), find_version_files fs = [] →
        extract_version ta fs "auto" = none) := by
  have hmain : ∀ (ta : Bool) (fs : FS),
      extract_version ta fs "auto" = auto_resolve_spec ta fs := by
    intro ta fs
    show (if (find_version_files fs).isEmpty then none
          else tryFiles ta fs
            (["setup.py", "pyproject.toml"] ++
              (find_version_files fs).filter (fun f => f.endsWith "__init__.py"))
            (find_version_files fs))
        = firstSome
            (fun f =>
              if (find_version_files fs).contains f then
                match extract_version_file ta fs f with
                | some v => if truthy v then some v else none
                | none => none
              else none)
            (["setup.py", "pyproject.toml"] ++
              (find_version_files fs).filter (fun f => f.endsWith "__init__.py"))
    cases hE : (find_version_files fs).isEmpty with
    | false =>
      simp only [Bool.false_eq_true, if_false]
      exact tryFiles_eq_firstSome ta fs _ _
    | true =>
      have hnil : find_version_files fs = [] := List.isEmpty_iff.mp hE
      rw [hnil]
      rfl
  refine ⟨hmain, fun ta fs h => ?_⟩
  rw [hmain]
  show firstSome _ _ = none
  rw [h]
  rfl

/-- C6 witness: an empty directory resolves to `None`, and a directory
with an empty-version `setup.py` and a versioned `pyproject.toml` follows
the preference order. -/
theorem C6_witness :
    extract_version true fsEmpty "auto" = none ∧
    extract_version true fs10 "auto" = auto_resolve_spec true fs10 :=
  ⟨C6_auto_mode.2 true fsEmpty rfl, C6_auto_mode.1 true fs10⟩

/-- C7 counterexample: the invocation `--file-path pyproject.toml`
against `fs7` — a real manifest declaring `[project.version]` with
`sub = "1"`, whose extracted version value is a non-empty TOML table —
makes `main` raise an uncaught `AttributeError` inside
`parse_version_parts` (`version.lstrip('v')` on a dict), so the process
exits with a non-zero code, refuting the claim that every invocation
exits 0. -/
theorem C7_counterexample :
    pyMain true fs7 args7 = Except.error () ∧
    extract_version true fs7 args7.file_path
      = some (TomlValue.table [("sub", TomlValue.str "1")]) :=
  ⟨rfl, rfl⟩

/-- C7 (amended): every run that completes exits with code 0, and a run
always completes when the resolved value is absent or a string — when no
version is resolved the `--fallback-version` value is used in all outputs
and a warning line is printed to the error stream.  (A run whose
extracted value is a non-empty TOML table instead raises an uncaught
exception, exiting non-zero.) -/
theorem C7_amended :
    (∀ (ta : Bool) (fs : FS) (args : Args) (r : MainResult),
        pyMain ta fs args = Except.ok r → r.exitCode = 0) ∧
    (∀ (ta : Bool) (fs : FS) (args : Args),
        extract_version ta fs args.file_path = none →
        pyMain ta fs args = Except.ok (mainStrResult args args.fallback_version true)) ∧
    (∀ (ta : Bool) (fs : FS) (args : Args) (s : String),
        extract_version ta fs args.file_path = some (TomlValue.str s) →
        pyMain ta fs args = Except.ok
          (if s.isEmpty then mainStrResult args args.fallback_version true
           else mainStrResult args s false)) ∧
    (∀ args : Args,
        (mainStrResult args args.fallback_version true).stderr
          = [warningLine args.fallback_version] ∧
        (mainStrResult args args.fallback_version true).versionOut
          = args.fallback_version ∧
        (mainStrResult args args.fallback_version true).stdout
          = ["Extracted version: " ++ args.fallback_version,
             "Tag: " ++ ("v" ++ args.fallback_version),
             "Parts: " ++ (parse_version_parts (some args.fallback_version)).1 ++ "."
               ++ (parse_version_parts (some args.fallback_version)).2.1 ++ "."
               ++ (parse_version_parts (some args.fallback_version)).2.2]) := by
  refine ⟨?_, ?_, ?_, fun args => ⟨rfl, rfl, rfl⟩⟩
  · intro ta fs args r hr
    unfold pyMain at hr
    dsimp only at hr
    split at hr
    · exact absurd hr (by simp)
    · injection hr with h
      subst h
      rfl
  · intro ta fs args h
    unfold pyMain
    rw [h]
    rfl
  · intro ta fs args s h
    unfold pyMain
    rw [h]
    cases hE : s.isEmpty with
    | true =>
      simp only [resolveValue, resolveWarned, truthy, hE, Bool.not_true]
      rfl
    | false =>
      simp only [resolveValue, resolveWarned, truthy, hE, Bool.not_false]
      rfl

/-- C7 witness: the amended laws at concrete invocations — a completed
run's exit code, the empty-directory fallback run, and a run on an
explicit `setup.py` whose version is the empty string. -/
theorem C7_witness :
    (mainStrResult defaultArgs "0.0.0" true).exitCode = 0 ∧
    pyMain true fsEmpty defaultArgs
      = Except.ok (mainStrResult defaultArgs "0.0.0" true) ∧
    pyMain true fs10 args10
      = Except.ok
          (if "".isEmpty then mainStrResult args10 "7.7.7" true
           else mainStrResult args10 "" false) ∧
    (mainStrResult args10 "7.7.7" true).stderr = [warningLine "7.7.7"] :=
  ⟨C7_amended.1 true fsEmpty defaultArgs (mainStrResult defaultArgs "0.0.0" true)
      (C7_amended.2.1 true fsEmpty defaultArgs rfl),
   C7_amended.2.1 true fsEmpty defaultArgs rfl,
   C7_amended.2.2.1 true fs10 args10 "" rfl,
   (C7_amended.2.2.2 args10).1⟩

/-- C8: when `--output-file` is given, a completed run appends exactly
five `key=value` lines in the fixed order `version`, `tag` (the version
prefixed with `v`), `major`, `minor`, `patch`; the file is opened in
append mode, so two successive invocations on the same output file leave
both five-line groups present in invocation order with the earlier group
unchanged. -/
theorem C8_output_append :
    (∀ (ta : Bool) (fs : FS) (args : Args) (out : String) (r : MainResult),
        args.output_file = some out →
        pyMain ta fs args = Except.ok r →
        r.appended = ["version=" ++ r.versionOut, "tag=" ++ r.tag,
          "major=" ++ r.major, "minor=" ++ r.minor, "patch=" ++ r.patch] ∧
        r.tag = "v" ++ r.versionOut ∧
        r.appended.length = 5) ∧
    (∀ (prev : String) (r1 r2 : MainResult),
        appendRun (appendRun prev r1) r2
          = prev ++ (String.join (r1.appended.map (fun l => l ++ "\n"))
              ++ String.join (r2.appended.map (fun l => l ++ "\n")))) := by
  constructor
  · intro ta fs args out r hout hr
    unfold pyMain at hr
    dsimp only at hr
    split at hr
    · exact absurd hr (by simp)
    · injection hr with h
      subst h
      refine ⟨?_, rfl, ?_⟩
      · show outputLines args _ _ _ _ _ = _
        unfold outputLines
        rw [hout]
        rfl
      · show (outputLines args _ _ _ _ _).length = 5
        unfold outputLines
        rw [hout]
        rfl
  · intro prev r1 r2
    unfold appendRun
    exact String.append_assoc prev _ _

/-- C8 witness: a concrete run with `--output-file` (fallback path in an
empty directory), and the append law iterated twice from an empty
previous file content. -/
theorem C8_witness :
    ((mainStrResult args8 "0.0.0" true).appended
        = ["version=" ++ (mainStrResult args8 "0.0.0" true).versionOut,
           "tag=" ++ (mainStrResult args8 "0.0.0" true).tag,
           "major=" ++ (mainStrResult args8 "0.0.0" true).major,
           "minor=" ++ (mainStrResult args8 "0.0.0" true).minor,
           "patch=" ++ (mainStrResult args8 "0.0.0" true).patch] ∧
      (mainStrResult args8 "0.0.0" true).tag
        = "v" ++ (mainStrResult args8 "0.0.0" true).versionOut ∧
      (mainStrResult args8 "0.0.0" true).appended.length = 5) ∧
    appendRun (appendRun "" (mainStrResult args8 "0.0.0" true)) (mainStrResult args8 "0.0.0" true)
      = "" ++ (String.join ((mainStrResult args8 "0.0.0" true).appended.map (fun l => l ++ "\n"))
          ++ String.join ((mainStrResult args8 "0.0.0" true).appended.map (fun l => l ++ "\n"))) :=
  ⟨C8_output_append.1 true fsEmpty args8 "out.txt" (mainStrResult args8 "0.0.0" true) rfl rfl,
   C8_output_append.2 "" (mainStrResult args8 "0.0.0" true) (mainStrResult args8 "0.0.0" true)⟩

/-- C10: an extracted version equal to the empty string is treated
exactly like no version found — the auto-mode loop falls through to the
next candidate file instead of returning it, and in `main` it triggers
the fallback substitution and the stderr warning. -/
theorem C10_empty_string_is_miss :
    (∀ (ta : Bool) (fs : FS) (f : String) (rest files : List String),
        extract_version_file ta fs f = some (TomlValue.str "") →
        tryFiles ta fs (f :: rest) files = tryFiles ta fs rest files) ∧
    (∀ (ta : Bool) (fs : FS) (args : Args),
        extract_version ta fs args.file_path = some (TomlValue.str "") →
        pyMain ta fs args = Except.ok (mainStrResult args args.fallback_version true)) ∧
    (∀ args : Args,
        (mainStrResult args args.fallback_version true).versionOut
          = args.fallback_version ∧
        (mainStrResult args args.fallback_version true).stderr
          = [warningLine args.fallback_version]) := by
  refine ⟨?_, ?_, fun args => ⟨rfl, rfl⟩⟩
  · intro ta fs f rest files h
    show (if files.contains f then
          match extract_version_file ta fs f with
          | some v => if truthy v then some v else tryFiles ta fs rest files
          | none => tryFiles ta fs rest files
        else tryFiles ta fs rest files) = tryFiles ta fs rest files
    rw [h]
    cases hc : files.contains f <;> rfl
  · intro ta fs args h
    unfold pyMain
    rw [h]
    rfl

/-- C10 witness: in `fs10` — `setup.py` assigning `version = ""` and a
versioned `pyproject.toml` — the loop step skips `setup.py`, and the
explicit run on `setup.py` falls back with a warning. -/
theorem C10_witness :
    tryFiles true fs10 ("setup.py" :: ["pyproject.toml"]) ["setup.py", "pyproject.toml"]
      = tryFiles true fs10 ["pyproject.toml"] ["setup.py", "pyproject.toml"] ∧
    pyMain true fs10 args10 = Except.ok (mainStrResult args10 "7.7.7" true) ∧
    (mainStrResult args10 "7.7.7" true).versionOut = "7.7.7" :=
  ⟨C10_empty_string_is_miss.1 true fs10 "setup.py" ["pyproject.toml"]
      ["setup.py", "pyproject.toml"] rfl,
   C10_empty_string_is_miss.2.1 true fs10 args10 rfl,
   (C10_empty_string_is_miss.2.2 args10).1⟩

/-- C2 (amended): the inline textual fallback is used exactly when no
TOML parser is importable (then the result is the regex capture for every
content); when a parser is available, a structured-parse failure is a
non-fatal miss that yields nothing. -/
theorem C2_amended :
    (∀ (text : List Char) (o : TomlParseOutcome),
        extract_from_pyproject_toml false text o =
          (reSearchAssign "version".toList text).map (fun g => TomlValue.str g.asString)) ∧
    (∀ text : List Char,
        extract_from_pyproject_toml true text TomlParseOutcome.parseError = none) :=
  ⟨fun _ _ => rfl, fun _ => rfl⟩
